import Mathlib

/-!
Verification of the Vulkan rendering backend of an X11 compositor.

This development gives a shallow embedding, in Lean, of the backend's core
state manipulation: the streaming vertex buffer's bump allocator, the
swapchain acquire/present/recreate state machine, the texture destruction
paths, the pipeline cache with its fallback policy, the X11 surface-texture
reuse logic, the DRM format selection of the DMA-BUF import path, the
descriptor pool, and the scene walker that turns an item tree into render
nodes and draw commands.  Machine integers are modelled as Nat with explicit
64-bit masking where the code relies on fixed-width bitwise arithmetic;
GPU handles are modelled as validity booleans; driver results are explicit
inputs.  Theorems about the claims of the specification follow the
definitions.
-/

set_option maxHeartbeats 1000000

namespace KWinVulkan

/-! ## Shader traits (vulkanpipeline.h, enum class ShaderTrait) -/

namespace ShaderTrait

def MapTexture : Nat := 1
def UniformColor : Nat := 2
def Modulate : Nat := 4
def AdjustSaturation : Nat := 8
def TransformColorspace : Nat := 16
def RoundedCorners : Nat := 32
def Border : Nat := 64

end ShaderTrait

/-! ## Streaming buffer (vulkanbuffer.cpp)

`VulkanBuffer::allocate` bump-allocates inside the persistently mapped
region.  `m_currentOffset` and sizes are VkDeviceSize (uint64); the
alignment mask `~(alignment - 1)` is therefore the 64-bit value
`2^64 - alignment`. -/

def U64 : Nat := 2 ^ 64

structure VulkanBuffer where
  persistentlyMapped : Bool
  mappedDataValid : Bool
  size : Nat
  currentOffset : Nat
deriving DecidableEq

def VulkanBuffer.allocate (b : VulkanBuffer) (size alignment : Nat) :
    VulkanBuffer × Option Nat :=
  if ¬ (b.persistentlyMapped ∧ b.mappedDataValid) then (b, none)
  else
    let alignedOffset := (b.currentOffset + alignment - 1) &&& (U64 - alignment)
    if alignedOffset + size > b.size then (b, none)
    else ({ b with currentOffset := alignedOffset + size }, some alignedOffset)

/-! ## Swapchain (vulkanswapchain.cpp)

The driver-facing calls `vkAcquireNextImageKHR` and `vkQueuePresentKHR`
are modelled by passing the driver's result code (and, for acquire, the
image index the driver would write) as explicit inputs. -/

inductive VkResultCode where
  | success
  | suboptimalKhr
  | errorOutOfDateKhr
  | otherError
deriving DecidableEq

def UINT32_MAX : Nat := 2 ^ 32 - 1

structure VulkanSwapchain where
  needsRecreation : Bool
  currentFrame : Nat
  currentImageIndex : Nat
deriving DecidableEq

def MAX_FRAMES_IN_FLIGHT : Nat := 2

def VulkanSwapchain.acquireNextImage (s : VulkanSwapchain)
    (driverResult : VkResultCode) (driverImageIndex : Nat) :
    VulkanSwapchain × Nat :=
  match driverResult with
  | .errorOutOfDateKhr => ({ s with needsRecreation := true }, UINT32_MAX)
  | .suboptimalKhr =>
      let s1 := { s with currentImageIndex := driverImageIndex, needsRecreation := true }
      (s1, s1.currentImageIndex)
  | .otherError => (s, UINT32_MAX)
  | .success =>
      let s1 := { s with currentImageIndex := driverImageIndex }
      (s1, s1.currentImageIndex)

def VulkanSwapchain.present (s : VulkanSwapchain) (driverResult : VkResultCode) :
    VulkanSwapchain × Bool :=
  match driverResult with
  | .errorOutOfDateKhr => ({ s with needsRecreation := true }, true)
  | .suboptimalKhr => ({ s with needsRecreation := true }, true)
  | .otherError => (s, false)
  | .success => (s, true)

def VulkanSwapchain.recreate (s : VulkanSwapchain) (stepsSucceed : Bool) :
    VulkanSwapchain × Bool :=
  if stepsSucceed then ({ s with needsRecreation := false }, true) else (s, false)

def VulkanSwapchain.advanceFrame (s : VulkanSwapchain) : VulkanSwapchain :=
  { s with currentFrame := (s.currentFrame + 1) % MAX_FRAMES_IN_FLIGHT }

/-! ## Bit-level helper for the allocator's alignment mask -/

theorem land_two_pow_sub_two_pow (x k n : Nat) (hk : k ≤ n) (hx : x < 2 ^ n) :
    x &&& (2 ^ n - 2 ^ k) = 2 ^ k * (x / 2 ^ k) := by
  have hmask : 2 ^ n - 2 ^ k = (2 ^ (n - k) - 1) <<< k := by
    have hnk : n - k + k = n := Nat.sub_add_cancel hk
    rw [Nat.shiftLeft_eq, Nat.sub_mul, one_mul, ← Nat.pow_add, hnk]
  have hdiv : 2 ^ k * (x / 2 ^ k) = (x >>> k) <<< k := by
    rw [Nat.shiftRight_eq_div_pow, Nat.shiftLeft_eq, Nat.mul_comm]
  rw [hmask, hdiv]
  apply Nat.eq_of_testBit_eq
  intro i
  rw [Nat.testBit_and, Nat.testBit_shiftLeft, Nat.testBit_shiftLeft,
      Nat.testBit_shiftRight]
  by_cases hki : k ≤ i
  · simp only [hki, decide_True, Bool.true_and]
    rw [Nat.testBit_two_pow_sub_one]
    have hik : k + (i - k) = i := by omega
    rw [hik]
    by_cases hin : i < n
    · have : i - k < n - k := by omega
      simp [this]
    · have hxi : x.testBit i = false := by
        apply Nat.testBit_lt_two_pow
        calc x < 2 ^ n := hx
          _ ≤ 2 ^ i := Nat.pow_le_pow_right (by norm_num) (by omega)
      simp [hxi]
  · simp [hki]

/-- C10: for every streaming-buffer allocate(size, alignment) call on a
persistently mapped buffer, a successful allocation returns the current
offset rounded up to the alignment (the least aligned offset not below the
current offset) and the bump offset advances to that aligned offset plus
size; on exhaustion the call returns failure with the state unchanged, and
every failed allocation leaves the bump offset untouched. -/
theorem claim_C10_streaming_allocate (b : VulkanBuffer) (size alignment k : Nat)
    (hpm : b.persistentlyMapped = true) (hmd : b.mappedDataValid = true)
    (ha : alignment = 2 ^ k) (hk : k ≤ 64)
    (hlt : b.currentOffset + alignment - 1 < 2 ^ 64) :
    (b.currentOffset ≤ alignment * ((b.currentOffset + alignment - 1) / alignment)
      ∧ alignment ∣ alignment * ((b.currentOffset + alignment - 1) / alignment)
      ∧ alignment * ((b.currentOffset + alignment - 1) / alignment)
          < b.currentOffset + alignment)
    ∧ (alignment * ((b.currentOffset + alignment - 1) / alignment) + size ≤ b.size →
        b.allocate size alignment =
          ({ b with currentOffset :=
              alignment * ((b.currentOffset + alignment - 1) / alignment) + size },
            some (alignment * ((b.currentOffset + alignment - 1) / alignment))))
    ∧ (b.size < alignment * ((b.currentOffset + alignment - 1) / alignment) + size →
        b.allocate size alignment = (b, none))
    ∧ ((b.allocate size alignment).2 = none → (b.allocate size alignment).1 = b) := by
  have hA1 : 1 ≤ alignment := by
    rw [ha]; exact Nat.one_le_two_pow
  have hkey : (b.currentOffset + alignment - 1) &&& (U64 - alignment)
      = alignment * ((b.currentOffset + alignment - 1) / alignment) := by
    subst ha
    simpa [U64] using land_two_pow_sub_two_pow (b.currentOffset + 2 ^ k - 1) k 64 hk hlt
  have hdm : alignment * ((b.currentOffset + alignment - 1) / alignment)
      + (b.currentOffset + alignment - 1) % alignment
      = b.currentOffset + alignment - 1 :=
    Nat.div_add_mod (b.currentOffset + alignment - 1) alignment
  have hmod : (b.currentOffset + alignment - 1) % alignment < alignment :=
    Nat.mod_lt _ (by omega)
  have halloc : b.allocate size alignment =
      (if b.size < alignment * ((b.currentOffset + alignment - 1) / alignment) + size
       then (b, none)
       else ({ b with currentOffset :=
                alignment * ((b.currentOffset + alignment - 1) / alignment) + size },
              some (alignment * ((b.currentOffset + alignment - 1) / alignment)))) := by
    unfold VulkanBuffer.allocate
    rw [hpm, hmd]
    simp only [and_self, not_true, if_false, hkey]
  refine ⟨⟨by omega, dvd_mul_right _ _, by omega⟩, ?_, ?_, ?_⟩
  · intro h
    rw [halloc, if_neg (by omega)]
  · intro h
    rw [halloc, if_pos h]
  · intro h
    rw [halloc] at h ⊢
    by_cases hcase : b.size <
        alignment * ((b.currentOffset + alignment - 1) / alignment) + size
    · rw [if_pos hcase]
    · rw [if_neg hcase] at h
      simp at h
theorem claim_C10_witness :
    VulkanBuffer.allocate ⟨true, true, 4194304, 5⟩ 32 16
      = (⟨true, true, 4194304, 48⟩, some 16) := by
  have h := (claim_C10_streaming_allocate ⟨true, true, 4194304, 5⟩ 32 16 4
    rfl rfl (by norm_num) (by norm_num) (by norm_num)).2.1 (by norm_num)
  rw [h]
  norm_num

/-- C2 counterexample: with a fresh swapchain, an acquire for which the
driver reports VK_SUBOPTIMAL_KHR sets needs_recreation but still returns
the acquired image index (the frame is not failed), and a subsequent
acquire succeeds even though recreate has not been called. -/
theorem claim_C2_counterexample :
    ((⟨false, 0, 0⟩ : VulkanSwapchain).acquireNextImage .suboptimalKhr 1).2 ≠ UINT32_MAX
    ∧ ((⟨false, 0, 0⟩ : VulkanSwapchain).acquireNextImage .suboptimalKhr 1).1.needsRecreation
        = true
    ∧ ((((⟨false, 0, 0⟩ : VulkanSwapchain).acquireNextImage
          .suboptimalKhr 1).1).acquireNextImage .success 2).2 ≠ UINT32_MAX := by
  decide

/-- C2 (amended): after acquire_next_image or present observes an
out-of-date or suboptimal driver result, needs_recreation is set; an
out-of-date acquire returns no valid image index (a suboptimal one returns
the acquired index, and acquires are not gated on needs_recreation); a
successful recreate clears needs_recreation. -/
theorem claim_C2_needs_recreation (s : VulkanSwapchain) (r : VkResultCode) (i : Nat)
    (h : r = .errorOutOfDateKhr ∨ r = .suboptimalKhr) :
    (s.acquireNextImage r i).1.needsRecreation = true
    ∧ (s.present r).1.needsRecreation = true
    ∧ (r = .errorOutOfDateKhr → (s.acquireNextImage r i).2 = UINT32_MAX)
    ∧ (s.recreate true).1.needsRecreation = false := by
  rcases h with h | h <;> subst h <;>
    simp [VulkanSwapchain.acquireNextImage, VulkanSwapchain.present,
      VulkanSwapchain.recreate]

theorem claim_C2_witness :
    ((⟨false, 0, 0⟩ : VulkanSwapchain).acquireNextImage
      .errorOutOfDateKhr 0).1.needsRecreation = true :=
  (claim_C2_needs_recreation ⟨false, 0, 0⟩ .errorOutOfDateKhr 0 (Or.inl rfl)).1

/-! ## Texture destruction (vulkantexture.cpp)

Handles are modelled as booleans (true = non-null).  `cleanup` and
`updateSampler` call vkDestroySampler / vkDestroyImageView /
vmaDestroyImage / vkDestroyImage / vkFreeMemory directly; each such direct
call is recorded as a `DestroyCall`.  The context's fence-tagged
deferred-destruction queues declared in vulkancontext.h
(queueSamplerForDestruction and friends) are never invoked on these paths,
so no queue-push event can occur here. -/

structure VulkanTexture where
  image : Bool
  imageView : Bool
  sampler : Bool
  allocation : Bool
  deviceMemory : Bool
  ownsImage : Bool
deriving DecidableEq

def VulkanTexture.isValid (t : VulkanTexture) : Bool :=
  t.image && t.imageView

inductive DestroyCall where
  | destroySampler
  | destroyImageView
  | vmaDestroyImage
  | destroyImage
  | freeMemory
deriving DecidableEq

def VulkanTexture.cleanup (deviceValid allocatorInitialized : Bool)
    (t : VulkanTexture) : VulkanTexture × List DestroyCall :=
  if ¬ deviceValid then (t, [])
  else
    let r1 : VulkanTexture × List DestroyCall :=
      if t.sampler then ({ t with sampler := false }, [DestroyCall.destroySampler])
      else (t, [])
    let r2 : VulkanTexture × List DestroyCall :=
      if r1.1.imageView then
        ({ r1.1 with imageView := false }, [DestroyCall.destroyImageView])
      else (r1.1, [])
    let r3 : VulkanTexture × List DestroyCall :=
      if r2.1.ownsImage ∧ r2.1.image then
        if r2.1.allocation ∧ allocatorInitialized then
          ({ r2.1 with image := false, allocation := false },
            [DestroyCall.vmaDestroyImage])
        else if r2.1.deviceMemory then
          ({ r2.1 with image := false, deviceMemory := false },
            [DestroyCall.destroyImage, DestroyCall.freeMemory])
        else
          ({ r2.1 with image := false }, [DestroyCall.destroyImage])
      else (r2.1, [])
    (r3.1, r1.2 ++ r2.2 ++ r3.2)

def VulkanTexture.updateSampler (t : VulkanTexture) (createSucceeds : Bool) :
    VulkanTexture × List DestroyCall :=
  let r1 : VulkanTexture × List DestroyCall :=
    if t.sampler then ({ t with sampler := false }, [DestroyCall.destroySampler])
    else (t, [])
  ({ r1.1 with sampler := createSucceeds }, r1.2)

/-- C1: evaluated at a texture holding a live sampler, image view and
VMA-backed owned image, cleanup performs direct (in-place) destruction
calls for all three, and updateSampler destroys the old sampler in place;
neither path is deferred, so the in-place call list is not empty. -/
theorem claim_C1_cleanup_destroys_in_place :
    (VulkanTexture.cleanup true true ⟨true, true, true, true, false, true⟩).2
      = [DestroyCall.destroySampler, DestroyCall.destroyImageView,
         DestroyCall.vmaDestroyImage]
    ∧ (VulkanTexture.updateSampler ⟨true, true, true, true, false, true⟩ true).2
      = [DestroyCall.destroySampler]
    ∧ (VulkanTexture.cleanup true true ⟨true, true, true, true, false, true⟩).2 ≠ [] := by
  decide

/-! ## Pipeline cache (vulkanpipelinemanager.cpp)

`VulkanPipeline::create` depends on the device, so it is passed in as an
oracle.  A lookup returns the updated manager, the result, and the list of
trait sets for which a pipeline build was attempted (in order). -/

structure VulkanPipeline where
  traits : Nat
  handleValid : Bool
deriving DecidableEq

structure VulkanPipelineManager where
  renderPassSet : Bool
  shadersLoaded : Bool
  pipelines : List (Nat × VulkanPipeline)
deriving DecidableEq

def cacheFind (c : List (Nat × VulkanPipeline)) (t : Nat) : Option VulkanPipeline :=
  match c with
  | [] => none
  | (k, p) :: rest => if k = t then some p else cacheFind rest t

def fallbackTraitsFor (traits : Nat) : Nat :=
  ShaderTrait.MapTexture ||| (traits &&& ShaderTrait.UniformColor)

/-- Claimed fallback traits, written from the specification's words
(`traits & (MAP_TEXTURE | UNIFORM_COLOR)`), for comparison with
`fallbackTraitsFor` taken from the source. -/
def specFallbackTraits (traits : Nat) : Nat :=
  traits &&& (ShaderTrait.MapTexture ||| ShaderTrait.UniformColor)

def VulkanPipelineManager.pipeline (m : VulkanPipelineManager)
    (create : Nat → Option VulkanPipeline) (traits : Nat) :
    VulkanPipelineManager × Option VulkanPipeline × List Nat :=
  if ¬ m.renderPassSet then (m, none, [])
  else if ¬ m.shadersLoaded then (m, none, [])
  else
    match cacheFind m.pipelines traits with
    | some p => (m, some p, [])
    | none =>
      match create traits with
      | some p => ({ m with pipelines := (traits, p) :: m.pipelines }, some p, [traits])
      | none =>
        let fb := fallbackTraitsFor traits
        if fb ≠ traits then
          match create fb with
          | some p =>
              ({ m with pipelines := (traits, p) :: m.pipelines }, some p, [traits, fb])
          | none => (m, none, [traits, fb])
        else (m, none, [traits])

/-- C5 counterexample: for the requested traits MODULATE (bit value 4),
the claim's retry traits `T & (MAP_TEXTURE | UNIFORM_COLOR)` are 0, but
the cache actually retries with MAP_TEXTURE: when the build of traits 4
fails and the build of traits 1 succeeds, the attempted builds are
[4, 1], and 1 differs from the claim's 0. -/
theorem claim_C5_counterexample :
    (VulkanPipelineManager.pipeline ⟨true, true, []⟩
        (fun t => if t = 1 then some ⟨1, true⟩ else none) 4).2.2 = [4, 1]
    ∧ fallbackTraitsFor 4 = 1
    ∧ specFallbackTraits 4 = 0
    ∧ fallbackTraitsFor 4 ≠ specFallbackTraits 4 := by
  decide

/-- C5 (amended): if building the pipeline for traits T fails, the cache
retries with MAP_TEXTURE | (T & UNIFORM_COLOR) (provided those differ from
T) and, on success, stores the fallback pipeline under the originally
requested key T, so that a later pipeline(T) call returns the cached entry
without attempting any further pipeline build. -/
theorem claim_C5_fallback_cached (m : VulkanPipelineManager)
    (create : Nat → Option VulkanPipeline) (traits : Nat) (p : VulkanPipeline)
    (h1 : m.renderPassSet = true) (h2 : m.shadersLoaded = true)
    (h3 : cacheFind m.pipelines traits = none)
    (h4 : create traits = none)
    (h5 : create (fallbackTraitsFor traits) = some p)
    (h6 : fallbackTraitsFor traits ≠ traits) :
    (m.pipeline create traits).2.1 = some p
    ∧ (m.pipeline create traits).2.2 = [traits, fallbackTraitsFor traits]
    ∧ cacheFind (m.pipeline create traits).1.pipelines traits = some p
    ∧ ((m.pipeline create traits).1.pipeline create traits).2.1 = some p
    ∧ ((m.pipeline create traits).1.pipeline create traits).2.2 = [] := by
  have hm : m.pipeline create traits =
      ({ m with pipelines := (traits, p) :: m.pipelines }, some p,
        [traits, fallbackTraitsFor traits]) := by
    simp only [VulkanPipelineManager.pipeline, h1, h2, h3, h4]
    simp [h5, h6]
  have hcache : cacheFind ((traits, p) :: m.pipelines) traits = some p := by
    unfold cacheFind
    simp
  refine ⟨by rw [hm], by rw [hm], ?_, ?_, ?_⟩
  · rw [hm]; exact hcache
  · rw [hm]
    unfold VulkanPipelineManager.pipeline
    rw [h1, h2]
    simp only [not_true, if_false, hcache]
  · rw [hm]
    unfold VulkanPipelineManager.pipeline
    rw [h1, h2]
    simp only [not_true, if_false, hcache]

theorem claim_C5_witness :
    (VulkanPipelineManager.pipeline ⟨true, true, []⟩
        (fun t => if t = 1 then some ⟨1, true⟩ else none) 5).2.1 = some ⟨1, true⟩ :=
  (claim_C5_fallback_cached ⟨true, true, []⟩
    (fun t => if t = 1 then some ⟨1, true⟩ else none) 5 ⟨1, true⟩
    rfl rfl rfl (by decide) (by decide) (by decide)).1

/-! ## X11 surface texture (vulkansurfacetexture_x11.cpp)

`VulkanSurfaceTextureX11::create` caches only the pixmap size (m_size) and
the texture planes; the observable side effects (texture reset, import
attempts) are recorded as an action list.  The success of the two import
paths and the capability checks depend on the X server and the device and
are passed in as explicit inputs. -/

structure SurfacePixmapX11 where
  valid : Bool
  pixmapId : Nat
  width : Nat
  height : Nat
deriving DecidableEq

structure VulkanSurfaceTextureX11 where
  textureValid : Bool
  width : Nat
  height : Nat
  useDmaBuf : Bool
deriving DecidableEq

inductive CreateAction where
  | resetTexture
  | importDmaBuf
  | importCpu
deriving DecidableEq

def VulkanSurfaceTextureX11.create (st : VulkanSurfaceTextureX11)
    (px : SurfacePixmapX11)
    (hasContext supportsDmaBuf dri3Present forceCpu dmaSucceeds cpuSucceeds : Bool) :
    VulkanSurfaceTextureX11 × Bool × List CreateAction :=
  if ¬ px.valid then (st, false, [])
  else if ¬ hasContext then (st, false, [])
  else if st.textureValid ∧ st.width = px.width ∧ st.height = px.height then
    (st, true, [])
  else
    let r1 : VulkanSurfaceTextureX11 × List CreateAction :=
      if st.textureValid then
        ({ st with textureValid := false }, [CreateAction.resetTexture])
      else (st, [])
    let st2 := { r1.1 with width := px.width, height := px.height }
    if px.width = 0 ∨ px.height = 0 then (st2, false, r1.2)
    else if supportsDmaBuf ∧ dri3Present ∧ ¬ forceCpu then
      if dmaSucceeds then
        ({ st2 with textureValid := true, useDmaBuf := true }, true,
          r1.2 ++ [CreateAction.importDmaBuf])
      else if cpuSucceeds then
        ({ st2 with textureValid := true, useDmaBuf := false }, true,
          r1.2 ++ [CreateAction.importDmaBuf, CreateAction.importCpu])
      else
        (st2, false, r1.2 ++ [CreateAction.importDmaBuf, CreateAction.importCpu])
    else
      if cpuSucceeds then
        ({ st2 with textureValid := true, useDmaBuf := false }, true,
          r1.2 ++ [CreateAction.importCpu])
      else (st2, false, r1.2 ++ [CreateAction.importCpu])

/-- C6 counterexample: a texture imported from the pixmap with id 1 and
size 512 x 256 is then offered a pixmap with the different id 2 but the
same size; create() reuses the cached texture, returning success with no
reset and no import action, instead of re-importing as the claim
requires when the pixmap id differs. -/
theorem claim_C6_counterexample :
    (VulkanSurfaceTextureX11.create ⟨false, 0, 0, false⟩ ⟨true, 1, 512, 256⟩
        true false false false false true)
      = (⟨true, 512, 256, false⟩, true, [CreateAction.importCpu])
    ∧ (VulkanSurfaceTextureX11.create ⟨true, 512, 256, false⟩ ⟨true, 2, 512, 256⟩
        true false false false false true)
      = (⟨true, 512, 256, false⟩, true, []) := by
  decide

/-- C6 (amended): create() is a no-op returning success exactly when a
valid texture is cached and the cached size matches the pixmap's current
size; the pixmap id is never consulted (the result is invariant under it);
on a size mismatch the prior texture is dropped and the surface is
re-imported. -/
theorem claim_C6_create_reuse (st : VulkanSurfaceTextureX11) (px : SurfacePixmapX11)
    (sdb d3 fc dma cpu : Bool)
    (hpx : px.valid = true) :
    (st.textureValid = true → st.width = px.width → st.height = px.height →
      st.create px true sdb d3 fc dma cpu = (st, true, []))
    ∧ (∀ id1 id2 : Nat,
        st.create ⟨px.valid, id1, px.width, px.height⟩ true sdb d3 fc dma cpu
          = st.create ⟨px.valid, id2, px.width, px.height⟩ true sdb d3 fc dma cpu)
    ∧ (st.textureValid = true → ¬ (st.width = px.width ∧ st.height = px.height) →
        List.head? (st.create px true sdb d3 fc dma cpu).2.2
          = some CreateAction.resetTexture) := by
  refine ⟨?_, ?_, ?_⟩
  · intro h1 h2 h3
    unfold VulkanSurfaceTextureX11.create
    rw [hpx]
    simp [h1, h2, h3]
  · intro id1 id2
    unfold VulkanSurfaceTextureX11.create
    rfl
  · intro h1 h2
    have hsz : ¬ (st.textureValid = true ∧ st.width = px.width ∧ st.height = px.height) :=
      fun hcon => h2 ⟨hcon.2.1, hcon.2.2⟩
    unfold VulkanSurfaceTextureX11.create
    rw [if_neg (by simp [hpx]), if_neg (by simp), if_neg hsz]
    simp only [h1, eq_self_iff_true, ite_true]
    split
    · rfl
    · split
      · split
        · rfl
        · split
          · rfl
          · rfl
      · split
        · rfl
        · rfl

theorem claim_C6_witness :
    VulkanSurfaceTextureX11.create ⟨true, 512, 256, false⟩ ⟨true, 7, 512, 256⟩
        true false false false false true
      = (⟨true, 512, 256, false⟩, true, []) :=
  (claim_C6_create_reuse ⟨true, 512, 256, false⟩ ⟨true, 7, 512, 256⟩
    false false false false true rfl).1 rfl rfl rfl

/-! ## DRM format selection (vulkansurfacetexture_x11.cpp, autotests)

`fourcc` mirrors the drm_fourcc.h fourcc_code packing.
`dmaBufImportFormat` is the depth/bpp check of
VulkanSurfaceTextureX11::createWithDmaBuf; `depthToDrmFormat` and
`drmFormatToVkFormat` are the conversion functions of
autotests/vulkan_format_test.cpp, which the test declares to mirror the
implementation. -/

def fourcc (a b c d : Nat) : Nat :=
  a ||| (b <<< 8) ||| (c <<< 16) ||| (d <<< 24)

def DRM_FORMAT_ARGB8888 : Nat := fourcc 65 82 50 52
def DRM_FORMAT_XRGB8888 : Nat := fourcc 88 82 50 52
def DRM_FORMAT_ABGR8888 : Nat := fourcc 65 66 50 52
def DRM_FORMAT_XBGR8888 : Nat := fourcc 88 66 50 52
def DRM_FORMAT_RGB888 : Nat := fourcc 82 71 50 52
def DRM_FORMAT_BGR888 : Nat := fourcc 66 71 50 52
def DRM_FORMAT_RGB565 : Nat := fourcc 82 71 49 54
def DRM_FORMAT_BGR565 : Nat := fourcc 66 71 49 54
def DRM_FORMAT_ARGB2101010 : Nat := fourcc 65 82 51 48
def DRM_FORMAT_XRGB2101010 : Nat := fourcc 88 82 51 48
def DRM_FORMAT_ABGR2101010 : Nat := fourcc 65 66 51 48
def DRM_FORMAT_XBGR2101010 : Nat := fourcc 88 66 51 48
def DRM_FORMAT_ABGR16161616F : Nat := fourcc 65 66 52 72

inductive VkFormat where
  | undefined
  | b8g8r8a8Unorm
  | r8g8b8a8Unorm
  | r8g8b8Unorm
  | b8g8r8Unorm
  | r5g6b5UnormPack16
  | b5g6r5UnormPack16
  | a2r10g10b10UnormPack32
  | a2b10g10r10UnormPack32
  | r16g16b16a16Sfloat
deriving DecidableEq

def dmaBufImportFormat (depth bpp : Nat) : Option Nat :=
  if depth = 24 ∧ bpp = 32 then some DRM_FORMAT_XRGB8888
  else if depth = 32 ∧ bpp = 32 then some DRM_FORMAT_ARGB8888
  else none

def depthToDrmFormat (depth : Nat) : Nat :=
  if depth = 32 then DRM_FORMAT_ARGB8888
  else if depth = 24 then DRM_FORMAT_XRGB8888
  else if depth = 30 then DRM_FORMAT_XRGB2101010
  else if depth = 16 then DRM_FORMAT_RGB565
  else 0

def drmFormatToVkFormat (drmFormat : Nat) : VkFormat :=
  if drmFormat = DRM_FORMAT_ARGB8888 then .b8g8r8a8Unorm
  else if drmFormat = DRM_FORMAT_XRGB8888 then .b8g8r8a8Unorm
  else if drmFormat = DRM_FORMAT_ABGR8888 then .r8g8b8a8Unorm
  else if drmFormat = DRM_FORMAT_XBGR8888 then .r8g8b8a8Unorm
  else if drmFormat = DRM_FORMAT_RGB888 then .r8g8b8Unorm
  else if drmFormat = DRM_FORMAT_BGR888 then .b8g8r8Unorm
  else if drmFormat = DRM_FORMAT_RGB565 then .r5g6b5UnormPack16
  else if drmFormat = DRM_FORMAT_BGR565 then .b5g6r5UnormPack16
  else if drmFormat = DRM_FORMAT_ARGB2101010 then .a2r10g10b10UnormPack32
  else if drmFormat = DRM_FORMAT_XRGB2101010 then .a2r10g10b10UnormPack32
  else if drmFormat = DRM_FORMAT_ABGR2101010 then .a2b10g10r10UnormPack32
  else if drmFormat = DRM_FORMAT_XBGR2101010 then .a2b10g10r10UnormPack32
  else if drmFormat = DRM_FORMAT_ABGR16161616F then .r16g16b16a16Sfloat
  else .undefined

/-- C7: the per-depth mapping asserted by the repository's format test
(16 to RGB565, 24 to XRGB8888, 30 to XRGB2101010, 32 to ARGB8888) is
non-zero for all four depths and round-trips to a supported Vulkan
format, but the DMA-BUF import path itself accepts only depths 24 and 32
at 32 bpp and rejects depths 16 and 30 as unsupported. -/
theorem claim_C7_depth_formats :
    (depthToDrmFormat 16 = DRM_FORMAT_RGB565
      ∧ depthToDrmFormat 24 = DRM_FORMAT_XRGB8888
      ∧ depthToDrmFormat 30 = DRM_FORMAT_XRGB2101010
      ∧ depthToDrmFormat 32 = DRM_FORMAT_ARGB8888)
    ∧ (depthToDrmFormat 16 ≠ 0 ∧ depthToDrmFormat 24 ≠ 0
      ∧ depthToDrmFormat 30 ≠ 0 ∧ depthToDrmFormat 32 ≠ 0)
    ∧ (drmFormatToVkFormat (depthToDrmFormat 16) ≠ VkFormat.undefined
      ∧ drmFormatToVkFormat (depthToDrmFormat 24) ≠ VkFormat.undefined
      ∧ drmFormatToVkFormat (depthToDrmFormat 30) ≠ VkFormat.undefined
      ∧ drmFormatToVkFormat (depthToDrmFormat 32) ≠ VkFormat.undefined)
    ∧ dmaBufImportFormat 16 16 = none
    ∧ dmaBufImportFormat 30 32 = none
    ∧ dmaBufImportFormat 24 32 = some DRM_FORMAT_XRGB8888
    ∧ dmaBufImportFormat 32 32 = some DRM_FORMAT_ARGB8888 := by
  decide

/-! ## Descriptor pool (vulkancontext.cpp)

`createDescriptorPool` hard-codes the pool sizes; the header documents the
policy `outputs * DESCRIPTOR_POOL_SETS_PER_OUTPUT` which is modelled as
`specPoolMaxSets`.  `allocateDescriptorSet` simply forwards the driver's
failure; a pool is modelled by its capacity and the number of sets handed
out, and the driver fails an allocation exactly when the pool is
exhausted.  Reset or fence waits would be recorded as `PoolAction`s. -/

def descriptorPoolMaxSets : Nat := 1000
def descriptorPoolUniformBufferCount : Nat := 1000
def descriptorPoolCombinedImageSamplerCount : Nat := 1000
def descriptorPoolStorageBufferCount : Nat := 100

def DESCRIPTOR_POOL_SETS_PER_OUTPUT : Nat := 15000

/-- Modelled from the spec: the descriptor-pool capacity policy the
specification and vulkancontext.h describe, `outputs * 15000` sets. -/
def specPoolMaxSets (outputs : Nat) : Nat :=
  outputs * DESCRIPTOR_POOL_SETS_PER_OUTPUT

structure DescriptorPool where
  maxSets : Nat
  allocated : Nat
deriving DecidableEq

inductive PoolAction where
  | resetPool
  | waitForFence
deriving DecidableEq

def VulkanContext.allocateDescriptorSet (p : DescriptorPool) :
    DescriptorPool × Bool × List PoolAction :=
  if p.allocated < p.maxSets then ({ p with allocated := p.allocated + 1 }, true, [])
  else (p, false, [])

/-- C9: the descriptor pool is created with 1000 sets (1000 uniform
buffers, 1000 combined image samplers, 100 storage buffers), not
outputs x 15000 with 1:10:1 proportions, and an allocation from an
exhausted pool simply fails, performing no pool reset and no fence
wait. -/
theorem claim_C9_descriptor_pool :
    descriptorPoolMaxSets = 1000
    ∧ specPoolMaxSets 1 = 15000
    ∧ descriptorPoolMaxSets ≠ specPoolMaxSets 1
    ∧ descriptorPoolCombinedImageSamplerCount ≠ 10 * descriptorPoolUniformBufferCount
    ∧ VulkanContext.allocateDescriptorSet ⟨1000, 1000⟩ = (⟨1000, 1000⟩, false, []) := by
  decide

/-! ## Scene walker (itemrenderer_vulkan.cpp)

The walker builds transform matrices, boxes and colour vectors but no
verified property inspects their numeric values, so matrices and rects are
represented by the free algebra of the operations the walker performs on
them.  The triangulation of window quads into vertices
(buildGeometryFromQuads) lives outside this repository's sources, so each
item directly carries the vertex list built for it; the application of a
texture's coordinate matrix to a vertex is likewise passed in as a
per-texture function, applied vertex-wise exactly where the source calls
postProcessTextureCoordinates. -/

inductive Mat where
  | ident
  | translateRound (x y : ℚ)
  | scaleM (sx sy : ℚ)
  | mulM (a b : Mat)
  | param (n : Nat)
deriving DecidableEq

inductive BoxVal where
  | snapScaledRect (x y w h scale : ℚ)
  | mapRectInv (m : Mat) (b : BoxVal)
  | adjusted (b : BoxVal) (t : ℤ)
deriving DecidableEq

inductive QVec4 where
  | zero
  | boxCenterHalf (b : BoxVal)
  | radiusVec (r : ℚ × ℚ × ℚ × ℚ)
  | rectVec (b : BoxVal)
deriving DecidableEq

structure RenderCorner where
  box : BoxVal
  radius : ℚ × ℚ × ℚ × ℚ
deriving DecidableEq

def radiusIsNull (r : ℚ × ℚ × ℚ × ℚ) : Bool :=
  decide (r = (0, 0, 0, 0))

def radiusScaledRounded (r : ℚ × ℚ × ℚ × ℚ) (s : ℚ) : ℚ × ℚ × ℚ × ℚ :=
  (((round (r.1 * s) : ℤ) : ℚ), ((round (r.2.1 * s) : ℤ) : ℚ),
    ((round (r.2.2.1 * s) : ℤ) : ℚ), ((round (r.2.2.2 * s) : ℤ) : ℚ))

structure Vertex2D where
  posX : ℚ
  posY : ℚ
  texX : ℚ
  texY : ℚ
deriving DecidableEq

def postProcessTextureCoordinates (f : Vertex2D → Vertex2D)
    (g : List Vertex2D) : List Vertex2D :=
  g.map f

inductive ItemKind where
  | shadow (texture : Option VulkanTexture)
  | decoration (texture : Option VulkanTexture)
  | surface (pixmapPresent : Bool) (texture : Option VulkanTexture)
      (pixmapHasAlpha : Bool) (hasReleasePoint : Bool)
  | image (texture : Option VulkanTexture)
  | outlinedBorder (thickness : ℚ) (colorR colorG colorB colorA : ℚ)
  | other
deriving DecidableEq

structure ItemData where
  positionX : ℚ
  positionY : ℚ
  opacity : ℚ
  transform : Option Mat
  borderRadius : Option (ℚ × ℚ × ℚ × ℚ)
  rectX : ℚ
  rectY : ℚ
  rectW : ℚ
  rectH : ℚ
  geometry : List Vertex2D
  visible : Bool
  kind : ItemKind

mutual
inductive Item where
  | mk (d : ItemData) (zNeg zNonNeg : ItemTreeList)
inductive ItemTreeList where
  | nil
  | cons (i : Item) (rest : ItemTreeList)
end

def Item.visible : Item → Bool
  | .mk d _ _ => d.visible

structure RenderNode where
  traits : Nat
  textures : List VulkanTexture
  geometry : List Vertex2D
  transformMatrix : Mat
  firstVertex : Nat
  vertexCount : Nat
  opacity : ℚ
  hasAlpha : Bool
  hasReleasePoint : Bool
  box : QVec4
  borderRadius : QVec4
  borderThickness : ℤ
  borderColor : ℚ × ℚ × ℚ × ℚ
deriving DecidableEq

structure RenderContext where
  renderNodes : List RenderNode
  transformStack : List Mat
  opacityStack : List ℚ
  cornerStack : List RenderCorner
  rootTransform : Mat
  renderTargetScale : ℚ

def dispatchVariant (texApply : VulkanTexture → Vertex2D → Vertex2D)
    (d : ItemData) (geometry : List Vertex2D) (ctx : RenderContext) : RenderContext :=
  match d.kind with
  | .shadow tex =>
    if geometry.isEmpty then ctx
    else
      match tex with
      | none => ctx
      | some texture =>
        let g := postProcessTextureCoordinates (texApply texture) geometry
        let node : RenderNode :=
          { traits := ShaderTrait.MapTexture
            textures := [texture]
            geometry := g
            transformMatrix := ctx.transformStack.headD Mat.ident
            firstVertex := 0
            vertexCount := g.length
            opacity := ctx.opacityStack.headD 1
            hasAlpha := true
            hasReleasePoint := false
            box := QVec4.zero
            borderRadius := QVec4.zero
            borderThickness := 0
            borderColor := (0, 0, 0, 0) }
        let node :=
          if node.opacity < 1 then
            { node with traits := node.traits ||| ShaderTrait.Modulate }
          else node
        { ctx with renderNodes := ctx.renderNodes ++ [node] }
  | .decoration tex =>
    if geometry.isEmpty then ctx
    else
      match tex with
      | none => ctx
      | some texture =>
        let g := postProcessTextureCoordinates (texApply texture) geometry
        let node : RenderNode :=
          { traits := ShaderTrait.MapTexture
            textures := [texture]
            geometry := g
            transformMatrix := ctx.transformStack.headD Mat.ident
            firstVertex := 0
            vertexCount := g.length
            opacity := ctx.opacityStack.headD 1
            hasAlpha := true
            hasReleasePoint := false
            box := QVec4.zero
            borderRadius := QVec4.zero
            borderThickness := 0
            borderColor := (0, 0, 0, 0) }
        let node :=
          if node.opacity < 1 then
            { node with traits := node.traits ||| ShaderTrait.Modulate }
          else node
        { ctx with renderNodes := ctx.renderNodes ++ [node] }
  | .surface pixmapPresent tex pixmapHasAlpha hasRelease =>
    if pixmapPresent ∧ ¬ geometry.isEmpty then
      match tex with
      | none => ctx
      | some texture =>
        if texture.isValid then
          let g := postProcessTextureCoordinates (texApply texture) geometry
          let node : RenderNode :=
            { traits := ShaderTrait.MapTexture
              textures := [texture]
              geometry := g
              transformMatrix := ctx.transformStack.headD Mat.ident
              firstVertex := 0
              vertexCount := g.length
              opacity := ctx.opacityStack.headD 1
              hasAlpha := pixmapHasAlpha
              hasReleasePoint := hasRelease
              box := QVec4.zero
              borderRadius := QVec4.zero
              borderThickness := 0
              borderColor := (0, 0, 0, 0) }
          let node :=
            match ctx.cornerStack with
            | [] => node
            | top :: _ =>
              if radiusIsNull top.radius then node
              else
                { node with
                    traits := node.traits ||| ShaderTrait.RoundedCorners
                    hasAlpha := true
                    box := QVec4.boxCenterHalf top.box
                    borderRadius := QVec4.radiusVec top.radius }
          let node :=
            if node.opacity < 1 then
              { node with traits := node.traits ||| ShaderTrait.Modulate }
            else node
          { ctx with renderNodes := ctx.renderNodes ++ [node] }
        else ctx
    else ctx
  | .image tex =>
    if geometry.isEmpty then ctx
    else
      match tex with
      | none => ctx
      | some texture =>
        let g := postProcessTextureCoordinates (texApply texture) geometry
        let node : RenderNode :=
          { traits := ShaderTrait.MapTexture
            textures := [texture]
            geometry := g
            transformMatrix := ctx.transformStack.headD Mat.ident
            firstVertex := 0
            vertexCount := g.length
            opacity := ctx.opacityStack.headD 1
            hasAlpha := true
            hasReleasePoint := false
            box := QVec4.zero
            borderRadius := QVec4.zero
            borderThickness := 0
            borderColor := (0, 0, 0, 0) }
        let node :=
          if node.opacity < 1 then
            { node with traits := node.traits ||| ShaderTrait.Modulate }
          else node
        { ctx with renderNodes := ctx.renderNodes ++ [node] }
  | .outlinedBorder thickness colorR colorG colorB colorA =>
    if geometry.isEmpty then ctx
    else
      let th : ℤ := round (thickness * ctx.renderTargetScale)
      let outer := BoxVal.snapScaledRect d.rectX d.rectY d.rectW d.rectH
        ctx.renderTargetScale
      let node : RenderNode :=
        { traits := ShaderTrait.Border
          textures := []
          geometry := geometry
          transformMatrix := ctx.transformStack.headD Mat.ident
          firstVertex := 0
          vertexCount := geometry.length
          opacity := ctx.opacityStack.headD 1
          hasAlpha := true
          hasReleasePoint := false
          box := QVec4.rectVec outer
          borderRadius := QVec4.rectVec (BoxVal.adjusted outer th)
          borderThickness := th
          borderColor := (colorR, colorG, colorB, colorA) }
      let node :=
        if node.opacity < 1 then
          { node with traits := node.traits ||| ShaderTrait.Modulate }
        else node
      { ctx with renderNodes := ctx.renderNodes ++ [node] }
  | .other => ctx

/-- The matrix built for one item and the push of the transform and
opacity stacks, matching the head of createRenderNode. -/
def pushStacks (d : ItemData) (ctx : RenderContext) : RenderContext × Mat :=
  let scale := ctx.renderTargetScale
  let m0 := Mat.translateRound ((round (d.positionX * scale) : ℤ) : ℚ)
    ((round (d.positionY * scale) : ℤ) : ℚ)
  let m1 := if ctx.transformStack.length = 1 then Mat.mulM m0 ctx.rootTransform else m0
  let matrix :=
    match d.transform with
    | none => m1
    | some tr =>
      Mat.mulM (Mat.mulM (Mat.mulM m1 (Mat.scaleM scale scale)) tr)
        (Mat.scaleM (1 / scale) (1 / scale))
  ({ ctx with
      transformStack :=
        Mat.mulM (ctx.transformStack.headD Mat.ident) matrix :: ctx.transformStack
      opacityStack := (ctx.opacityStack.headD 1) * d.opacity :: ctx.opacityStack },
    matrix)

/-- The border-radius handling: push this item's rounded-corner clip, or
propagate the parent clip through the inverse of the item matrix. -/
def pushCorner (d : ItemData) (matrix : Mat) (ctx : RenderContext) : RenderContext :=
  match d.borderRadius with
  | some r =>
    { ctx with cornerStack :=
        { box := BoxVal.snapScaledRect d.rectX d.rectY d.rectW d.rectH
            ctx.renderTargetScale
          radius := radiusScaledRounded r ctx.renderTargetScale } :: ctx.cornerStack }
  | none =>
    match ctx.cornerStack with
    | [] => ctx
    | top :: _ =>
      { ctx with cornerStack :=
          { box := BoxVal.mapRectInv matrix top.box
            radius := top.radius } :: ctx.cornerStack }

/-- The stack pops at the end of createRenderNode; the corner stack is
popped only when non-empty. -/
def popStacks (ctx : RenderContext) : RenderContext :=
  { ctx with
      transformStack := ctx.transformStack.tail
      opacityStack := ctx.opacityStack.tail
      cornerStack :=
        if ctx.cornerStack.isEmpty then ctx.cornerStack else ctx.cornerStack.tail }

mutual

def createRenderNode (texApply : VulkanTexture → Vertex2D → Vertex2D) :
    Item → RenderContext → RenderContext
  | .mk d zNeg zNonNeg, ctx =>
    let p := pushStacks d ctx
    let ctx2 := createRenderNodeList texApply zNeg p.1
    let ctx3 := pushCorner d p.2 ctx2
    let ctx4 := dispatchVariant texApply d d.geometry ctx3
    let ctx5 := createRenderNodeList texApply zNonNeg ctx4
    popStacks ctx5

def createRenderNodeList (texApply : VulkanTexture → Vertex2D → Vertex2D) :
    ItemTreeList → RenderContext → RenderContext
  | .nil, ctx => ctx
  | .cons i rest, ctx =>
    let ctx1 := if i.visible then createRenderNode texApply i ctx else ctx
    createRenderNodeList texApply rest ctx1

end

def renderItem (texApply : VulkanTexture → Vertex2D → Vertex2D) (item : Item)
    (dataOpacity : ℚ) (rootTransform : Mat) (scale : ℚ) : RenderContext :=
  let ctx : RenderContext :=
    { renderNodes := []
      transformStack := [Mat.ident]
      opacityStack := [dataOpacity]
      cornerStack := []
      rootTransform := rootTransform
      renderTargetScale := scale }
  createRenderNode texApply item ctx

/-! ## Batched draw issuance (ItemRendererVulkan::renderNodes)

Phase 1 assigns first-vertex offsets by a running total and memcpys the
concatenated vertex data into the streaming buffer at offset 0; the source
performs this copy without any capacity check against the 4 MiB arena.
Phase 2 walks the nodes, skipping a node when its pipeline is missing or
invalid, its texture list is empty, its descriptor-set allocation fails,
or its texture's image view is null; only then is a draw recorded. -/

def GLVertex2DSize : Nat := 16

def streamingBufferSize : Nat := 4 * 1024 * 1024

def assignFirstVertex : List RenderNode → Nat → List RenderNode
  | [], _ => []
  | n :: rest, off =>
    { n with firstVertex := off } :: assignFirstVertex rest (off + n.vertexCount)

def totalUploadBytes (nodes : List RenderNode) : Nat :=
  (nodes.map (fun n => n.geometry.length)).sum * GLVertex2DSize

def renderNodesUpload (nodes : List RenderNode) : List RenderNode × Nat :=
  (assignFirstVertex nodes 0, totalUploadBytes nodes)

structure DrawCmd where
  vertexCount : Nat
  firstVertex : Nat
  textures : List VulkanTexture
  descriptorSetBound : Bool
deriving DecidableEq

def renderNodesDraws (pipelineFor : Nat → Option VulkanPipeline) :
    DescriptorPool → List RenderNode → DescriptorPool × List DrawCmd
  | pool, [] => (pool, [])
  | pool, node :: rest =>
    if node.vertexCount = 0 then renderNodesDraws pipelineFor pool rest
    else
      match pipelineFor node.traits with
      | none => renderNodesDraws pipelineFor pool rest
      | some p =>
        if ¬ p.handleValid then renderNodesDraws pipelineFor pool rest
        else
          match node.textures with
          | [] => renderNodesDraws pipelineFor pool rest
          | t :: _ =>
            let r := VulkanContext.allocateDescriptorSet pool
            if ¬ r.2.1 then renderNodesDraws pipelineFor r.1 rest
            else if ¬ t.imageView then renderNodesDraws pipelineFor r.1 rest
            else
              let tailResult := renderNodesDraws pipelineFor r.1 rest
              (tailResult.1,
                { vertexCount := node.vertexCount
                  firstVertex := node.firstVertex
                  textures := node.textures
                  descriptorSetBound := true } :: tailResult.2)

/-! ## Structural lemmas about the walker phases -/

theorem pushStacks_renderNodes (d : ItemData) (ctx : RenderContext) :
    (pushStacks d ctx).1.renderNodes = ctx.renderNodes := rfl

theorem pushStacks_transformStack (d : ItemData) (ctx : RenderContext) :
    (pushStacks d ctx).1.transformStack
      = Mat.mulM (ctx.transformStack.headD Mat.ident) (pushStacks d ctx).2
          :: ctx.transformStack := rfl

theorem pushStacks_opacityStack (d : ItemData) (ctx : RenderContext) :
    (pushStacks d ctx).1.opacityStack
      = (ctx.opacityStack.headD 1) * d.opacity :: ctx.opacityStack := rfl

theorem pushStacks_cornerStack (d : ItemData) (ctx : RenderContext) :
    (pushStacks d ctx).1.cornerStack = ctx.cornerStack := rfl

theorem pushCorner_renderNodes (d : ItemData) (m : Mat) (ctx : RenderContext) :
    (pushCorner d m ctx).renderNodes = ctx.renderNodes := by
  unfold pushCorner
  cases d.borderRadius with
  | none => cases ctx.cornerStack <;> rfl
  | some r => rfl

theorem pushCorner_transformStack (d : ItemData) (m : Mat) (ctx : RenderContext) :
    (pushCorner d m ctx).transformStack = ctx.transformStack := by
  unfold pushCorner
  cases d.borderRadius with
  | none => cases ctx.cornerStack <;> rfl
  | some r => rfl

theorem pushCorner_opacityStack (d : ItemData) (m : Mat) (ctx : RenderContext) :
    (pushCorner d m ctx).opacityStack = ctx.opacityStack := by
  unfold pushCorner
  cases d.borderRadius with
  | none => cases ctx.cornerStack <;> rfl
  | some r => rfl

theorem pushCorner_cornerStack (d : ItemData) (m : Mat) (ctx : RenderContext) :
    (ctx.cornerStack = [] ∧ (pushCorner d m ctx).cornerStack = ctx.cornerStack)
    ∨ ∃ c, (pushCorner d m ctx).cornerStack = c :: ctx.cornerStack := by
  unfold pushCorner
  cases d.borderRadius with
  | none =>
    cases h : ctx.cornerStack with
    | nil => exact Or.inl ⟨rfl, h⟩
    | cons top rest => exact Or.inr ⟨_, rfl⟩
  | some r => exact Or.inr ⟨_, rfl⟩

theorem popStacks_renderNodes (ctx : RenderContext) :
    (popStacks ctx).renderNodes = ctx.renderNodes := rfl

theorem dispatchVariant_stacks (f : VulkanTexture → Vertex2D → Vertex2D)
    (d : ItemData) (g : List Vertex2D) (ctx : RenderContext) :
    (dispatchVariant f d g ctx).transformStack = ctx.transformStack
    ∧ (dispatchVariant f d g ctx).opacityStack = ctx.opacityStack
    ∧ (dispatchVariant f d g ctx).cornerStack = ctx.cornerStack := by
  cases hd : d.kind with
  | shadow tex =>
    cases tex <;> simp only [dispatchVariant, hd] <;>
      (first | (split <;> (first | exact ⟨rfl, rfl, rfl⟩ | simp)) | exact ⟨rfl, rfl, rfl⟩ | simp)
  | decoration tex =>
    cases tex <;> simp only [dispatchVariant, hd] <;>
      (first | (split <;> (first | exact ⟨rfl, rfl, rfl⟩ | simp)) | exact ⟨rfl, rfl, rfl⟩ | simp)
  | surface pp tex ha hr =>
    cases tex with
    | none =>
      simp only [dispatchVariant, hd]
      (first | (split <;> (first | exact ⟨rfl, rfl, rfl⟩ | simp)) | exact ⟨rfl, rfl, rfl⟩ | simp)
    | some t =>
      simp only [dispatchVariant, hd]
      (first
        | (split <;> (first | (split <;> (first | exact ⟨rfl, rfl, rfl⟩ | simp)) | exact ⟨rfl, rfl, rfl⟩ | simp))
        | exact ⟨rfl, rfl, rfl⟩
        | simp)
  | image tex =>
    cases tex <;> simp only [dispatchVariant, hd] <;>
      (first | (split <;> (first | exact ⟨rfl, rfl, rfl⟩ | simp)) | exact ⟨rfl, rfl, rfl⟩ | simp)
  | outlinedBorder th cr cg cb ca =>
    simp only [dispatchVariant, hd]
    (first | (split <;> (first | exact ⟨rfl, rfl, rfl⟩ | simp)) | exact ⟨rfl, rfl, rfl⟩ | simp)
  | other =>
    simp only [dispatchVariant, hd]
    (first | exact ⟨rfl, rfl, rfl⟩ | simp)

mutual

theorem createRenderNode_stacks (f : VulkanTexture → Vertex2D → Vertex2D)
    (i : Item) (ctx : RenderContext) :
    (createRenderNode f i ctx).transformStack = ctx.transformStack
    ∧ (createRenderNode f i ctx).opacityStack = ctx.opacityStack
    ∧ (createRenderNode f i ctx).cornerStack = ctx.cornerStack := by
  cases i with
  | mk d zNeg zNonNeg =>
    simp only [createRenderNode, popStacks]
    set p := pushStacks d ctx with hp
    set ctx2 := createRenderNodeList f zNeg p.1 with hctx2
    set ctx3 := pushCorner d p.2 ctx2 with hctx3
    set ctx4 := dispatchVariant f d d.geometry ctx3 with hctx4
    set ctx5 := createRenderNodeList f zNonNeg ctx4 with hctx5
    obtain ⟨h2t, h2o, h2c⟩ := createRenderNodeList_stacks f zNeg p.1
    obtain ⟨h5t, h5o, h5c⟩ := createRenderNodeList_stacks f zNonNeg ctx4
    obtain ⟨hdt, hdo, hdc⟩ := dispatchVariant_stacks f d d.geometry ctx3
    have hct := pushCorner_transformStack d p.2 ctx2
    have hco := pushCorner_opacityStack d p.2 ctx2
    have hcc := pushCorner_cornerStack d p.2 ctx2
    rw [← hctx2] at h2t h2o h2c
    rw [← hctx3] at hct hco hcc
    rw [← hctx4] at hdt hdo hdc
    rw [← hctx5] at h5t h5o h5c
    have hpt : p.1.transformStack
        = Mat.mulM (ctx.transformStack.headD Mat.ident) p.2 :: ctx.transformStack := by
      rw [hp]; rfl
    have hpo : p.1.opacityStack
        = (ctx.opacityStack.headD 1) * d.opacity :: ctx.opacityStack := by
      rw [hp]; rfl
    have hpc : p.1.cornerStack = ctx.cornerStack := by
      rw [hp]; rfl
    refine ⟨?_, ?_, ?_⟩
    · rw [h5t, hdt, hct, h2t, hpt, List.tail_cons]
    · rw [h5o, hdo, hco, h2o, hpo, List.tail_cons]
    · rcases hcc with ⟨hnil, heq⟩ | ⟨c, heq⟩
      · have hc5 : ctx5.cornerStack = [] := by
          rw [h5c, hdc, heq, hnil]
        have hctxnil : ctx.cornerStack = [] := by
          rw [← hpc, ← h2c]; exact hnil
        rw [hc5, hctxnil]
        rfl
      · have hc5 : ctx5.cornerStack = c :: ctx2.cornerStack := by
          rw [h5c, hdc, heq]
        rw [hc5]
        simp only [List.isEmpty_cons, List.tail_cons, Bool.false_eq_true, if_false]
        rw [h2c, hpc]

theorem createRenderNodeList_stacks (f : VulkanTexture → Vertex2D → Vertex2D)
    (l : ItemTreeList) (ctx : RenderContext) :
    (createRenderNodeList f l ctx).transformStack = ctx.transformStack
    ∧ (createRenderNodeList f l ctx).opacityStack = ctx.opacityStack
    ∧ (createRenderNodeList f l ctx).cornerStack = ctx.cornerStack := by
  cases l with
  | nil => exact ⟨rfl, rfl, rfl⟩
  | cons i rest =>
    obtain ⟨hit, hio, hic⟩ := createRenderNode_stacks f i ctx
    obtain ⟨hrt1, hro1, hrc1⟩ := createRenderNodeList_stacks f rest
      (createRenderNode f i ctx)
    obtain ⟨hrt2, hro2, hrc2⟩ := createRenderNodeList_stacks f rest ctx
    simp only [createRenderNodeList]
    by_cases hv : i.visible = true
    · rw [if_pos hv]
      exact ⟨hrt1.trans hit, hro1.trans hio, hrc1.trans hic⟩
    · rw [if_neg hv]
      exact ⟨hrt2, hro2, hrc2⟩

end

/-- C8 counterexample: already for a single leaf item, the transform and
opacity stacks of the RenderContext are not empty after render_item: the
identity seed pushed by renderItem and the initial paint-data opacity are
never popped, so the stacks hold exactly one entry each. -/
theorem claim_C8_counterexample :
    (renderItem (fun _ v => v)
        (Item.mk ⟨0, 0, 1, none, none, 0, 0, 0, 0, [], true, ItemKind.other⟩
          ItemTreeList.nil ItemTreeList.nil) 1 Mat.ident 1).transformStack ≠ []
    ∧ (renderItem (fun _ v => v)
        (Item.mk ⟨0, 0, 1, none, none, 0, 0, 0, 0, [], true, ItemKind.other⟩
          ItemTreeList.nil ItemTreeList.nil) 1 Mat.ident 1).opacityStack ≠ [] := by
  decide

/-- C8 (amended): for every item tree and every RenderContext built by
render_item, after render_item returns the rounded-corner stack is empty
and the transform and opacity stacks hold exactly their initial seed
entries (the identity matrix and the paint-data opacity): every push
performed during the recursive node build is matched by a pop. -/
theorem claim_C8_stacks_balanced (f : VulkanTexture → Vertex2D → Vertex2D)
    (item : Item) (dataOpacity : ℚ) (rootTransform : Mat) (scale : ℚ) :
    (renderItem f item dataOpacity rootTransform scale).transformStack = [Mat.ident]
    ∧ (renderItem f item dataOpacity rootTransform scale).opacityStack = [dataOpacity]
    ∧ (renderItem f item dataOpacity rootTransform scale).cornerStack = [] := by
  obtain ⟨ht, ho, hc⟩ := createRenderNode_stacks f item
    { renderNodes := []
      transformStack := [Mat.ident]
      opacityStack := [dataOpacity]
      cornerStack := []
      rootTransform := rootTransform
      renderTargetScale := scale }
  exact ⟨ht, ho, hc⟩

/-! ## Node emission: MAP_TEXTURE nodes always carry a texture -/

def ItemKind.requiresMapTexture : ItemKind → Bool
  | .shadow _ => true
  | .decoration _ => true
  | .surface _ _ _ _ => true
  | .image _ => true
  | .outlinedBorder _ _ _ _ _ => false
  | .other => false

def ItemKind.textureOf : ItemKind → Option VulkanTexture
  | .shadow t => t
  | .decoration t => t
  | .surface _ t _ _ => t
  | .image t => t
  | .outlinedBorder _ _ _ _ _ => none
  | .other => none

theorem dispatchVariant_skip (f : VulkanTexture → Vertex2D → Vertex2D)
    (d : ItemData) (g : List Vertex2D) (ctx : RenderContext)
    (h1 : d.kind.requiresMapTexture = true) (h2 : d.kind.textureOf = none) :
    dispatchVariant f d g ctx = ctx := by
  cases hd : d.kind with
  | shadow tex =>
    rw [hd] at h2
    simp only [ItemKind.textureOf] at h2
    subst h2
    simp only [dispatchVariant, hd]
    split <;> rfl
  | decoration tex =>
    rw [hd] at h2
    simp only [ItemKind.textureOf] at h2
    subst h2
    simp only [dispatchVariant, hd]
    split <;> rfl
  | surface pp tex ha hr =>
    rw [hd] at h2
    simp only [ItemKind.textureOf] at h2
    subst h2
    simp only [dispatchVariant, hd]
    split <;> rfl
  | image tex =>
    rw [hd] at h2
    simp only [ItemKind.textureOf] at h2
    subst h2
    simp only [dispatchVariant, hd]
    split <;> rfl
  | outlinedBorder th cr cg cb ca =>
    rw [hd] at h1
    simp [ItemKind.requiresMapTexture] at h1
  | other =>
    rw [hd] at h1
    simp [ItemKind.requiresMapTexture] at h1

theorem dispatchVariant_nodes (f : VulkanTexture → Vertex2D → Vertex2D)
    (d : ItemData) (g : List Vertex2D) (ctx : RenderContext) :
    ∀ n ∈ (dispatchVariant f d g ctx).renderNodes,
      n ∈ ctx.renderNodes
      ∨ (n.textures ≠ [] ∨ n.traits &&& ShaderTrait.MapTexture = 0) := by
  intro n hn
  cases hd : d.kind with
  | shadow tex =>
    cases tex with
    | none =>
      simp only [dispatchVariant, hd] at hn
      split at hn <;> exact Or.inl hn
    | some t =>
      simp only [dispatchVariant, hd] at hn
      split at hn
      · exact Or.inl hn
      · rcases List.mem_append.mp hn with hmem | hmem
        · exact Or.inl hmem
        · rw [List.mem_singleton] at hmem
          subst hmem
          refine Or.inr (Or.inl ?_)
          repeat' split
          all_goals exact List.cons_ne_nil _ _
  | decoration tex =>
    cases tex with
    | none =>
      simp only [dispatchVariant, hd] at hn
      split at hn <;> exact Or.inl hn
    | some t =>
      simp only [dispatchVariant, hd] at hn
      split at hn
      · exact Or.inl hn
      · rcases List.mem_append.mp hn with hmem | hmem
        · exact Or.inl hmem
        · rw [List.mem_singleton] at hmem
          subst hmem
          refine Or.inr (Or.inl ?_)
          repeat' split
          all_goals exact List.cons_ne_nil _ _
  | surface pp tex ha hr =>
    cases tex with
    | none =>
      simp only [dispatchVariant, hd] at hn
      split at hn <;> exact Or.inl hn
    | some t =>
      simp only [dispatchVariant, hd] at hn
      split at hn
      · split at hn
        · rcases List.mem_append.mp hn with hmem | hmem
          · exact Or.inl hmem
          · rw [List.mem_singleton] at hmem
            subst hmem
            refine Or.inr (Or.inl ?_)
            repeat' split
            all_goals exact List.cons_ne_nil _ _
        · exact Or.inl hn
      · exact Or.inl hn
  | image tex =>
    cases tex with
    | none =>
      simp only [dispatchVariant, hd] at hn
      split at hn <;> exact Or.inl hn
    | some t =>
      simp only [dispatchVariant, hd] at hn
      split at hn
      · exact Or.inl hn
      · rcases List.mem_append.mp hn with hmem | hmem
        · exact Or.inl hmem
        · rw [List.mem_singleton] at hmem
          subst hmem
          refine Or.inr (Or.inl ?_)
          repeat' split
          all_goals exact List.cons_ne_nil _ _
  | outlinedBorder th cr cg cb ca =>
    simp only [dispatchVariant, hd] at hn
    split at hn
    · exact Or.inl hn
    · rcases List.mem_append.mp hn with hmem | hmem
      · exact Or.inl hmem
      · rw [List.mem_singleton] at hmem
        subst hmem
        refine Or.inr (Or.inr ?_)
        repeat' split
        all_goals
          first
            | exact (by decide :
                (ShaderTrait.Border ||| ShaderTrait.Modulate) &&& ShaderTrait.MapTexture = 0)
            | exact (by decide : ShaderTrait.Border &&& ShaderTrait.MapTexture = 0)
  | other =>
    simp only [dispatchVariant, hd] at hn
    exact Or.inl hn

mutual

theorem createRenderNode_nodes (f : VulkanTexture → Vertex2D → Vertex2D)
    (i : Item) (ctx : RenderContext) :
    ∀ n ∈ (createRenderNode f i ctx).renderNodes,
      n ∈ ctx.renderNodes
      ∨ (n.textures ≠ [] ∨ n.traits &&& ShaderTrait.MapTexture = 0) := by
  cases i with
  | mk d zNeg zNonNeg =>
    intro n hn
    simp only [createRenderNode, popStacks_renderNodes] at hn
    rcases createRenderNodeList_nodes f zNonNeg _ n hn with hn4 | hok
    · rcases dispatchVariant_nodes f d d.geometry _ n hn4 with hn3 | hok
      · rw [pushCorner_renderNodes] at hn3
        rcases createRenderNodeList_nodes f zNeg _ n hn3 with hn2 | hok
        · rw [pushStacks_renderNodes] at hn2
          exact Or.inl hn2
        · exact Or.inr hok
      · exact Or.inr hok
    · exact Or.inr hok

theorem createRenderNodeList_nodes (f : VulkanTexture → Vertex2D → Vertex2D)
    (l : ItemTreeList) (ctx : RenderContext) :
    ∀ n ∈ (createRenderNodeList f l ctx).renderNodes,
      n ∈ ctx.renderNodes
      ∨ (n.textures ≠ [] ∨ n.traits &&& ShaderTrait.MapTexture = 0) := by
  cases l with
  | nil =>
    intro n hn
    exact Or.inl hn
  | cons i rest =>
    intro n hn
    simp only [createRenderNodeList] at hn
    by_cases hv : i.visible = true
    · rw [if_pos hv] at hn
      rcases createRenderNodeList_nodes f rest _ n hn with hn1 | hok
      · exact createRenderNode_nodes f i ctx n hn1
      · exact Or.inr hok
    · rw [if_neg hv] at hn
      rcases createRenderNodeList_nodes f rest _ n hn with hn1 | hok
      · exact Or.inl hn1
      · exact Or.inr hok

end

theorem renderNodesDraws_textures (pipelineFor : Nat → Option VulkanPipeline)
    (pool : DescriptorPool) (nodes : List RenderNode) :
    ∀ c ∈ (renderNodesDraws pipelineFor pool nodes).2,
      c.textures ≠ [] ∧ c.descriptorSetBound = true := by
  induction nodes generalizing pool with
  | nil =>
    intro c hc
    simp only [renderNodesDraws, List.not_mem_nil] at hc
  | cons node rest ih =>
    intro c hc
    simp only [renderNodesDraws] at hc
    split at hc
    · exact ih pool c hc
    · split at hc
      · exact ih pool c hc
      · split at hc
        · exact ih pool c hc
        · split at hc
          · exact ih pool c hc
          · split at hc
            · exact ih _ c hc
            · split at hc
              · exact ih _ c hc
              · rcases List.mem_cons.mp hc with hceq | hcmem
                · subst hceq
                  constructor
                  · rename_i htex _ _
                    rw [htex]
                    exact List.cons_ne_nil _ _
                  · rfl
                · exact ih _ c hcmem

/-- C3: an item whose variant requires the MAP_TEXTURE trait (shadow,
decoration, surface, image) but offers no texture produces no render node;
every node the walker emits that carries the MAP_TEXTURE trait has a
non-empty texture list; and every draw issued by render_nodes has a
non-empty texture list and a bound descriptor set. -/
theorem claim_C3_map_texture_nodes
    (f : VulkanTexture → Vertex2D → Vertex2D) (d : ItemData) (ctx : RenderContext)
    (item : Item) (dataOpacity : ℚ) (rootTransform : Mat) (scale : ℚ)
    (pipelineFor : Nat → Option VulkanPipeline) (pool : DescriptorPool)
    (nodes : List RenderNode)
    (h1 : d.kind.requiresMapTexture = true) (h2 : d.kind.textureOf = none) :
    (createRenderNode f (Item.mk d ItemTreeList.nil ItemTreeList.nil) ctx).renderNodes
        = ctx.renderNodes
    ∧ (∀ n ∈ (renderItem f item dataOpacity rootTransform scale).renderNodes,
        n.traits &&& ShaderTrait.MapTexture ≠ 0 → n.textures ≠ [])
    ∧ (∀ c ∈ (renderNodesDraws pipelineFor pool nodes).2,
        c.textures ≠ [] ∧ c.descriptorSetBound = true) := by
  refine ⟨?_, ?_, renderNodesDraws_textures pipelineFor pool nodes⟩
  · simp only [createRenderNode, createRenderNodeList]
    rw [dispatchVariant_skip f d d.geometry _ h1 h2]
    rw [popStacks_renderNodes, pushCorner_renderNodes, pushStacks_renderNodes]
  · intro n hn htr
    have h := createRenderNode_nodes f item
      { renderNodes := []
        transformStack := [Mat.ident]
        opacityStack := [dataOpacity]
        cornerStack := []
        rootTransform := rootTransform
        renderTargetScale := scale } n hn
    rcases h with hmem | hok | hzero
    · exact absurd hmem (List.not_mem_nil n)
    · exact hok
    · exact absurd hzero htr

theorem claim_C3_witness :
    (createRenderNode (fun _ v => v)
        (Item.mk ⟨0, 0, 1, none, none, 0, 0, 0, 0, [], true, ItemKind.shadow none⟩
          ItemTreeList.nil ItemTreeList.nil)
        { renderNodes := []
          transformStack := [Mat.ident]
          opacityStack := [1]
          cornerStack := []
          rootTransform := Mat.ident
          renderTargetScale := 1 }).renderNodes = [] :=
  (claim_C3_map_texture_nodes (fun _ v => v)
    ⟨0, 0, 1, none, none, 0, 0, 0, 0, [], true, ItemKind.shadow none⟩
    { renderNodes := []
      transformStack := [Mat.ident]
      opacityStack := [1]
      cornerStack := []
      rootTransform := Mat.ident
      renderTargetScale := 1 }
    (Item.mk ⟨0, 0, 1, none, none, 0, 0, 0, 0, [], true, ItemKind.other⟩
      ItemTreeList.nil ItemTreeList.nil)
    1 Mat.ident 1 (fun _ => none) ⟨1000, 0⟩ [] rfl rfl).1

/-! ## The streaming upload has no capacity check (C4) -/

theorem dispatchVariant_surface_counts (f : VulkanTexture → Vertex2D → Vertex2D)
    (d : ItemData) (g : List Vertex2D) (ctx : RenderContext)
    (tex : VulkanTexture) (ha hr : Bool)
    (hk : d.kind = ItemKind.surface true (some tex) ha hr)
    (hv : tex.isValid = true) (hg : g.isEmpty = false) :
    ∃ node, (dispatchVariant f d g ctx).renderNodes = ctx.renderNodes ++ [node]
      ∧ node.vertexCount = g.length ∧ node.geometry.length = g.length := by
  simp only [dispatchVariant, hk, hv, hg, not_false_eq_true, and_self, true_and,
    Bool.false_eq_true, if_true, ite_true]
  refine ⟨_, rfl, ?_, ?_⟩ <;>
  · repeat' split
    all_goals simp [postProcessTextureCoordinates]

theorem createRenderNode_surface_leaf (f : VulkanTexture → Vertex2D → Vertex2D)
    (d : ItemData) (ctx : RenderContext) (tex : VulkanTexture) (ha hr : Bool)
    (hk : d.kind = ItemKind.surface true (some tex) ha hr)
    (hv : tex.isValid = true) (hg : d.geometry.isEmpty = false) :
    ∃ node, (createRenderNode f (Item.mk d ItemTreeList.nil ItemTreeList.nil)
          ctx).renderNodes
        = ctx.renderNodes ++ [node]
      ∧ node.vertexCount = d.geometry.length
      ∧ node.geometry.length = d.geometry.length := by
  obtain ⟨node, hn, hvc, hgl⟩ := dispatchVariant_surface_counts f d d.geometry
    (pushCorner d (pushStacks d ctx).2 (pushStacks d ctx).1) tex ha hr hk hv hg
  refine ⟨node, ?_, hvc, hgl⟩
  simp only [createRenderNode, createRenderNodeList, popStacks_renderNodes]
  rw [hn, pushCorner_renderNodes, pushStacks_renderNodes]

/-- The failing frame for the streaming upload: a single valid surface
item carrying 262 145 vertices (one more than the 4 MiB arena holds). -/
def overflowItemData : ItemData :=
  { positionX := 0, positionY := 0, opacity := 1, transform := none,
    borderRadius := none, rectX := 0, rectY := 0, rectW := 0, rectH := 0,
    geometry := List.replicate 262145 ⟨0, 0, 0, 0⟩, visible := true,
    kind := ItemKind.surface true (some ⟨true, true, true, true, false, true⟩)
      true false }

def overflowSeedContext : RenderContext :=
  { renderNodes := []
    transformStack := [Mat.ident]
    opacityStack := [1]
    cornerStack := []
    rootTransform := Mat.ident
    renderTargetScale := 1 }

/-- C4 (the code evaluated at the failing input): a frame holding one
surface node of 262 145 vertices keeps vertex_count equal to the length of
its geometry list, yet the batched vertex upload of render_nodes writes
4 194 320 bytes into the 4 194 304-byte streaming arena - it performs no
capacity check - and first_vertex + vertex_count exceeds the arena's
262 144-vertex capacity. -/
theorem claim_C4_unbounded_upload :
    ∃ node,
      (renderItem (fun _ v => v)
          (Item.mk overflowItemData ItemTreeList.nil ItemTreeList.nil)
          1 Mat.ident 1).renderNodes = [node]
      ∧ node.vertexCount = node.geometry.length
      ∧ node.vertexCount = 262145
      ∧ (renderNodesUpload [node]).2 = 4194320
      ∧ streamingBufferSize = 4194304
      ∧ (renderNodesUpload [node]).2 > streamingBufferSize
      ∧ ∃ m ∈ (renderNodesUpload [node]).1,
          m.firstVertex + m.vertexCount > streamingBufferSize / GLVertex2DSize := by
  have hgE : overflowItemData.geometry.isEmpty = false := by
    show (List.replicate (262144 + 1) (⟨0, 0, 0, 0⟩ : Vertex2D)).isEmpty = false
    rw [List.replicate_succ]
    rfl
  obtain ⟨node, hn, hvc, hgl⟩ := createRenderNode_surface_leaf (fun _ v => v)
    overflowItemData overflowSeedContext
    ⟨true, true, true, true, false, true⟩ true false rfl rfl hgE
  have hvc1 : node.vertexCount = 262145 := by
    rw [hvc]
    exact List.length_replicate 262145 _
  have hgl1 : node.geometry.length = 262145 := by
    rw [hgl]
    exact List.length_replicate 262145 _
  have hbytes : (renderNodesUpload [node]).2 = 4194320 := by
    show totalUploadBytes [node] = 4194320
    unfold totalUploadBytes
    rw [List.map_cons, List.map_nil, List.sum_cons, List.sum_nil, hgl1]
    rfl
  refine ⟨node, ?_, ?_, hvc1, hbytes, rfl, ?_, ?_⟩
  · have hconv : (renderItem (fun _ v => v)
        (Item.mk overflowItemData ItemTreeList.nil ItemTreeList.nil)
          1 Mat.ident 1).renderNodes
        = (createRenderNode (fun _ v => v)
            (Item.mk overflowItemData ItemTreeList.nil ItemTreeList.nil)
            overflowSeedContext).renderNodes := rfl
    rw [hconv, hn]
    rfl
  · rw [hvc1, hgl1]
  · rw [hbytes]
    decide
  · refine ⟨{ node with firstVertex := 0 }, ?_, ?_⟩
    · show { node with firstVertex := 0 } ∈ assignFirstVertex [node] 0
      unfold assignFirstVertex
      exact List.mem_singleton.mpr rfl
    · have h1 : ({ node with firstVertex := 0 } : RenderNode).firstVertex = 0 := rfl
      have h2 : ({ node with firstVertex := 0 } : RenderNode).vertexCount = 262145 :=
        hvc1
      rw [h1, h2]
      decide

end KWinVulkan
